import Mathlib

/-!
Formal model of the TrenoSim railway-station simulator
(repository project-work2526).

The static topology is embedded verbatim from the SQL seed in the
repository (the `sections`, `section_connections` and `rail_blocks`
INSERT statements), the prototype seed data from
`backend/db/mock_data.sql`, and the behavioural rules described in the
repository README and INSTRUCTIONS.md. Operations of the simulation
engine whose Python source is not part of the repository snapshot are
modelled from the textual descriptions, as noted in their doc comments.
-/

set_option maxRecDepth 40000

namespace TrenoSim

/-- A row of the `section_connections` table: a directed edge between two
sections, with an optional previous-block exclusion (V-turn rule) and an
`is_active` signalling flag (default TRUE in the schema). -/
structure Conn where
  from_section_id : Nat
  to_section_id : Nat
  exclude_previous_block_name : Option String
  is_active : Bool
deriving DecidableEq, Repr

/-- Connection row with no exclusion, `is_active` defaulted to TRUE. -/
def cn (a b : Nat) : Conn := ⟨a, b, none, true⟩

/-- Connection row carrying an `exclude_previous_block_name`. -/
def cx (a b : Nat) (e : String) : Conn := ⟨a, b, some e, true⟩

/-- The 144 section ids inserted by the topology seed (part_009). -/
def sections : List Nat := [
  0, 1, 2, 3, 4, 5, 6, 7, 8, 9, 10, 11, 12, 13, 14, 15, 16, 17,
  18, 19, 20, 21, 22, 23, 24, 25, 26, 27, 28, 29, 30, 31, 32, 33, 34, 35,
  36, 37, 38, 39, 40, 41, 100, 101, 102, 103, 104, 105, 106, 107, 108, 109, 110, 111,
  112, 113, 114, 115, 116, 117, 118, 119, 120, 121, 122, 123, 124, 125, 126, 127, 128, 129,
  130, 131, 132, 133, 134, 135, 136, 137, 138, 139, 140, 141, 200, 201, 202, 203, 204, 205,
  206, 207, 208, 209, 210, 211, 212, 213, 214, 215, 216, 217, 218, 219, 220, 221, 222, 223,
  224, 300, 301, 302, 303, 304, 305, 306, 307, 308, 309, 310, 1000, 1001, 1010, 1011, 1020, 1021,
  1030, 1031, 1040, 1041, 2000, 2001, 2010, 2011, 2020, 2021, 2030, 2031, 3000, 3001, 3010, 3011, 3020, 3021]

/-- The 298 `section_connections` rows inserted by the topology seed,
in file order. -/
def section_connections : List Conn := [
  cn 0 1, cn 1 2, cx 2 3 "L", cx 2 1000 "C", cn 1000 1001, cn 1001 105,
  cn 3 4, cn 4 5, cn 5 6, cn 6 7, cn 7 8, cn 8 9,
  cn 9 10, cx 10 1010 "E", cn 1010 1011, cn 1011 113, cx 10 11 "P", cn 11 12,
  cn 12 13, cn 13 14, cn 14 15, cn 15 16, cn 16 17, cn 17 18,
  cx 18 1020 "G", cn 1020 1021, cn 1021 121, cx 18 19 "S", cn 19 20, cn 20 21,
  cn 21 22, cn 22 23, cn 23 24, cn 24 25, cn 25 26, cn 26 27,
  cn 27 28, cn 28 29, cn 29 30, cn 30 31, cn 31 32, cn 32 33,
  cn 33 34, cn 34 35, cn 35 36, cn 36 37, cn 37 38, cn 38 39,
  cn 39 40, cn 40 41, cx 41 1040 "I", cn 1040 1041, cn 1041 138, cx 41 40 "Y",
  cn 40 39, cn 39 38, cn 38 37, cn 37 36, cn 36 35, cn 35 34,
  cn 34 33, cx 33 1030 "G", cn 1030 1031, cn 1031 130, cx 33 32 "U", cn 32 31,
  cn 31 30, cn 30 29, cn 29 28, cn 28 27, cn 27 26, cn 26 25,
  cn 25 24, cn 24 23, cn 23 22, cn 22 21, cn 21 20, cn 20 19,
  cn 19 18, cn 18 17, cn 17 16, cn 16 15, cn 15 14, cn 14 13,
  cn 13 12, cn 12 11, cn 11 10, cn 10 9, cn 9 8, cn 8 7,
  cn 7 6, cn 6 5, cn 5 4, cn 4 3, cn 3 2, cn 2 1,
  cn 1 0, cn 100 101, cn 101 102, cn 102 103, cn 103 104, cn 104 105,
  cn 105 106, cx 106 2000 "N", cn 2000 2001, cn 2001 200, cx 106 107 "AA", cn 107 108,
  cn 108 109, cn 109 110, cx 110 2010 "P", cn 2010 2011, cn 2011 204, cx 110 111 "AD",
  cn 111 112, cn 112 113, cn 113 114, cn 114 115, cn 115 116, cn 116 117,
  cn 117 118, cx 118 2020 "S", cn 2020 2021, cn 2021 212, cx 118 119 "AH", cn 119 120,
  cn 120 121, cn 121 122, cn 122 123, cn 123 124, cn 124 125, cn 125 126,
  cn 126 127, cn 127 128, cn 129 130, cx 130 1031 "V", cn 1031 1030, cn 1030 33,
  cx 130 131 "H", cn 131 132, cn 132 133, cn 133 134, cn 134 135, cn 135 136,
  cn 136 137, cn 137 138, cx 138 1041 "Z", cn 1041 1040, cn 1040 41, cx 138 139 "J",
  cn 139 140, cn 140 141, cn 141 140, cn 140 139, cn 139 138, cn 138 137,
  cn 137 136, cx 136 2030 "V", cn 2030 2031, cn 2031 224, cx 136 135 "AK", cn 135 134,
  cn 134 133, cn 133 132, cn 132 131, cn 131 130, cn 130 129, cn 129 128,
  cn 128 127, cn 127 126, cn 126 125, cn 125 124, cn 124 123, cn 123 122,
  cn 122 121, cx 121 1021 "R", cn 1021 1020, cn 1020 18, cx 121 120 "F", cn 120 119,
  cn 119 118, cn 118 117, cn 117 116, cn 116 115, cn 115 114, cn 114 113,
  cx 113 1011 "O", cn 1011 1010, cn 1010 10, cx 113 112 "D", cn 112 111, cn 111 110,
  cn 110 109, cn 109 108, cn 108 107, cn 107 106, cn 106 105, cx 105 1001 "K",
  cn 1001 1000, cn 1000 2, cx 105 104 "B", cn 104 103, cn 103 102, cn 102 101,
  cn 101 100, cx 200 3000 "AC", cn 3000 3001, cx 200 201 "UNKNOWN", cn 201 202, cn 202 203,
  cn 203 204, cn 204 205, cn 205 206, cn 206 207, cn 207 208, cx 208 3010 "AG",
  cn 3010 3011, cn 3011 300, cx 208 209 "AL", cn 209 210, cn 210 211, cn 211 212,
  cn 212 213, cn 213 214, cn 214 215, cn 215 216, cn 216 217, cn 218 219,
  cn 219 220, cn 220 221, cn 221 222, cn 222 223, cn 223 224, cn 224 2031,
  cn 2031 2030, cn 2030 136, cx 224 3020 "AI", cn 3020 3021, cn 3021 310, cx 224 223 "AL",
  cn 223 222, cn 222 221, cn 221 220, cn 220 219, cn 219 218, cn 218 217,
  cn 217 216, cn 216 215, cn 215 214, cn 214 213, cn 213 212, cx 212 2021 "AG",
  cn 2021 2020, cn 2020 118, cx 212 211 "R", cn 211 210, cn 210 209, cn 209 208,
  cn 208 207, cn 207 206, cn 206 205, cn 205 204, cx 204 2011 "AC", cn 2011 2010,
  cn 2010 110, cx 204 203 "O", cn 203 202, cn 202 201, cn 201 200, cn 200 2001,
  cn 2001 2000, cn 2000 106, cn 300 301, cn 301 302, cn 302 303, cn 303 304,
  cn 304 305, cn 305 306, cn 306 307, cn 307 308, cn 308 309, cn 309 310,
  cn 310 3021, cn 3021 3020, cn 3020 224, cn 310 309, cn 309 308, cn 308 307,
  cn 307 306, cn 306 305, cn 305 304, cn 304 303, cn 303 302, cn 302 301,
  cn 301 300, cn 300 3011, cn 3011 3010, cn 3010 208]

/-- The `rail_blocks (block_name, section_id)` rows of the topology seed. -/
def rail_blocks : List (String × Nat) := [
  ("A", 0), ("A", 1), ("B", 2), ("B", 3), ("B", 1000), ("C", 4), ("C", 5), ("C", 6),
  ("C", 7), ("C", 8), ("C", 9), ("D", 10), ("D", 11), ("D", 1010), ("E", 12), ("E", 13),
  ("E", 14), ("E", 15), ("E", 16), ("E", 17), ("F", 18), ("F", 19), ("F", 1020), ("G", 20),
  ("G", 21), ("G", 22), ("G", 23), ("G", 24), ("G", 25), ("G", 26), ("G", 27), ("G", 28),
  ("G", 29), ("G", 30), ("G", 31), ("H", 32), ("H", 33), ("H", 1030), ("I", 34), ("I", 35),
  ("I", 36), ("I", 37), ("I", 38), ("I", 39), ("J", 40), ("J", 41), ("J", 1040), ("K", 100),
  ("K", 101), ("K", 102), ("K", 103), ("L", 104), ("L", 105), ("L", 1001), ("M", 106), ("M", 107),
  ("M", 2000), ("N", 108), ("N", 109), ("O", 110), ("O", 111), ("O", 2010), ("P", 112), ("P", 113),
  ("P", 1011), ("Q", 114), ("Q", 115), ("Q", 116), ("Q", 117), ("R", 118), ("R", 119), ("R", 2020),
  ("S", 120), ("S", 121), ("S", 1021), ("T", 122), ("T", 123), ("T", 124), ("T", 125), ("T", 126),
  ("T", 127), ("T", 128), ("T", 129), ("U", 130), ("U", 131), ("U", 1031), ("V", 132), ("V", 133),
  ("V", 134), ("W", 135), ("W", 136), ("W", 2030), ("X", 137), ("Y", 138), ("Y", 139), ("Y", 1041),
  ("Z", 140), ("Z", 141), ("AA", 2001), ("AB", 200), ("AB", 201), ("AB", 3000), ("AC", 202), ("AD", 203),
  ("AD", 204), ("AD", 2011), ("AE", 205), ("AE", 206), ("AE", 207), ("AF", 208), ("AF", 209), ("AF", 3010),
  ("AG", 210), ("AH", 211), ("AH", 212), ("AH", 2021), ("AI", 213), ("AI", 214), ("AI", 215), ("AI", 216),
  ("AI", 217), ("AI", 218), ("AI", 219), ("AI", 220), ("AI", 221), ("AI", 222), ("AJ", 223), ("AJ", 224),
  ("AJ", 3020), ("AK", 2031), ("AL", 3011), ("AL", 300), ("AL", 301), ("AL", 302), ("AL", 303), ("AL", 304),
  ("AL", 305), ("AL", 306), ("AL", 307), ("AL", 308), ("AL", 309), ("AL", 310), ("AL", 3021)]

/-- Every inserted section except 218-224: the region of the connection
graph reachable from section 200 without passing through section 224. -/
def cut_set : List Nat := [
  0, 1, 2, 3, 4, 5, 6, 7, 8, 9, 10, 11, 12, 13, 14, 15, 16, 17,
  18, 19, 20, 21, 22, 23, 24, 25, 26, 27, 28, 29, 30, 31, 32, 33, 34, 35,
  36, 37, 38, 39, 40, 41, 100, 101, 102, 103, 104, 105, 106, 107, 108, 109, 110, 111,
  112, 113, 114, 115, 116, 117, 118, 119, 120, 121, 122, 123, 124, 125, 126, 127, 128, 129,
  130, 131, 132, 133, 134, 135, 136, 137, 138, 139, 140, 141, 200, 201, 202, 203, 204, 205,
  206, 207, 208, 209, 210, 211, 212, 213, 214, 215, 216, 217, 300, 301, 302, 303, 304, 305,
  306, 307, 308, 309, 310, 1000, 1001, 1010, 1011, 1020, 1021, 1030, 1031, 1040, 1041, 2000, 2001, 2010,
  2011, 2020, 2021, 2030, 2031, 3000, 3001, 3010, 3011, 3020, 3021]

/-- The `stops (stop_name, section_id)` rows of the topology seed. -/
def stops : List (String × Nat) :=
  [("Binario 1", 31), ("Binario 2", 129), ("Binario 3", 213), ("Binario 4", 301)]

/-- Spawn sections: INSTRUCTIONS.md rule 8 (section 0 left, section 141 right). -/
def spawn_sections : List Nat := [0, 141]

/-- Despawn sections: INSTRUCTIONS.md rule 9 (section 100 left, section 41 right). -/
def despawn_sections : List Nat := [100, 41]

/-- Whether the seeded connection table contains the directed edge (s, t). -/
def hasEdge (s t : Nat) : Bool :=
  section_connections.any fun r => r.from_section_id == s && r.to_section_id == t

/-- Block membership: the block name the seed assigns to a section, if any. -/
def blockOf (s : Nat) : Option String :=
  (rail_blocks.find? fun r => r.2 == s).map fun r => r.1

/-- Whether an edge with exclusion `e` is forbidden for a train whose
immediately previous block is `pb` (spec: the exclusion forbids the edge
exactly when the previous block equals the named block). -/
def excludedFor (e pb : Option String) : Bool :=
  match e, pb with
  | some b, some p => b == p
  | _, _ => false

/-- Sections reachable in one traversable step from `s` for a train whose
previous block is `pb`: filtered by `is_active` and the exclusion rule. -/
def neighbors (s : Nat) (pb : Option String) : List Nat :=
  (section_connections.filter fun r =>
    r.from_section_id == s && r.is_active && !excludedFor r.exclude_previous_block_name pb).map
    fun r => r.to_section_id

/-- Previous-block bookkeeping along a move s → t: entering a section of a
different block makes the block of `s` the new previous block. -/
def stepPrev (pb : Option String) (s t : Nat) : Option String :=
  if blockOf t == blockOf s then pb else blockOf s

/-- A section list is a valid traversal when every consecutive pair is an active
connection row whose exclusion does not fire for the running previous block. -/
def validPath (pb : Option String) : List Nat → Bool
  | [] => true
  | [_] => true
  | s :: t :: rest =>
    (neighbors s pb).contains t && validPath (stepPrev pb s t) (t :: rest)

/-- A section list is a chain of directed edges of the seeded connection
table (no exclusion filtering: the plain directed graph). -/
def isChain : List Nat → Bool
  | [] => true
  | [_] => true
  | s :: t :: rest => hasEdge s t && isChain (t :: rest)

/-- A row of the `wagon_positions` table: a wagon sitting on a section at a
fractional offset (the FLOAT column is embedded as a rational). -/
structure WagonPos where
  wagon_id : Nat
  section_id : Nat
  position_offset : ℚ
deriving DecidableEq, Repr

/-- Abbreviation for a `wagon_positions` row. -/
def wp (w s : Nat) (o : ℚ) : WagonPos := ⟨w, s, o⟩

/-- The sixteen `wagon_positions` rows seeded by `backend/db/mock_data.sql`,
in file order. -/
def mock_wagon_positions : List WagonPos :=
  [wp 1 2 (2/10), wp 2 2 (5/10), wp 3 2 (8/10),
   wp 4 4 (1/10), wp 5 4 (4/10), wp 6 4 (7/10), wp 7 4 (9/10),
   wp 8 7 (2/10), wp 9 7 (4/10), wp 10 7 (6/10), wp 11 7 (8/10),
   wp 12 8 (3/10), wp 13 8 (6/10),
   wp 14 3 (2/10), wp 15 3 (5/10), wp 16 3 (7/10)]

/-- Spec invariant 1 / INSTRUCTIONS.md rule 1: no two `wagon_positions`
rows reference the same section at the same time. -/
def oneWagonPerSection (rows : List WagonPos) : Prop :=
  (rows.map WagonPos.section_id).Nodup

/-- C1: the initial seeded state violates the one-wagon-per-section
invariant — `mock_data.sql` places wagons 1, 2 and 3 all on section 2
(and likewise crowds sections 3, 4, 7 and 8), so the claim fails on the
seed data even though INSTRUCTIONS.md rule 1 states it. -/
theorem C1_seed_two_wagons_one_section :
    ¬ oneWagonPerSection mock_wagon_positions := by
  unfold oneWagonPerSection
  decide

/-- C2: of the four mandated approach edges into the stop sections, the
seeded connection data contains (30, 31), (214, 213) and (302, 301) but
NOT (128, 129) — the left approach into stop section 129 required by
INSTRUCTIONS.md rule 11 is missing from the data. -/
theorem C2_stop_approach_edges :
    hasEdge 30 31 = true ∧ hasEdge 214 213 = true ∧ hasEdge 302 301 = true ∧
    hasEdge 128 129 = false := by decide

/-- C4: within block B = {2, 3, 1000} the seeded directed edges are exactly
(2, 3) excluding previous block L, (2, 1000) excluding previous block C,
(3, 2) and (1000, 2); the V-turn edges (3, 1000) and (1000, 3) are absent,
and the exclusion filter indeed forbids (2, 1000) to a train whose previous
block is C and (2, 3) to one whose previous block is L, while a train
coming from block A may take (2, 1000). -/
theorem C4_block_B_edges :
    (section_connections.filter fun r =>
        [2, 3, 1000].contains r.from_section_id &&
        [2, 3, 1000].contains r.to_section_id) =
      [cx 2 3 "L", cx 2 1000 "C", cn 3 2, cn 1000 2] ∧
    hasEdge 3 1000 = false ∧ hasEdge 1000 3 = false ∧
    (neighbors 2 (some "C")).contains 1000 = false ∧
    (neighbors 2 (some "L")).contains 3 = false ∧
    (neighbors 2 (some "A")).contains 1000 = true := by decide

/-- Modelled from the spec: the topology loader's validation that every
connection row's two endpoints are inserted sections (loader code is not
in the repository snapshot; spec §6). -/
def connectionEndpointsExist : Bool :=
  section_connections.all fun r =>
    sections.contains r.from_section_id && sections.contains r.to_section_id

/-- Modelled from the spec: the loader's validation that every block name
is associated with at least one section (spec §6). -/
def everyBlockHasASection : Bool :=
  (rail_blocks.map fun r => r.1).all fun n => rail_blocks.any fun r => r.1 == n

/-- Modelled from the spec: the loader's validation that every spawn and
despawn section is an inserted section (spec §6, INSTRUCTIONS rules 8-9). -/
def spawnDespawnExist : Bool :=
  (spawn_sections ++ despawn_sections).all sections.contains

/-- C5: the seeded topology passes all loader validations — every
connection endpoint is an inserted section, every block name has at least
one section, and the spawn sections (0, 141) and despawn sections
(100, 41) are inserted sections. -/
theorem C5_loader_validations :
    connectionEndpointsExist = true ∧ everyBlockHasASection = true ∧
    spawnDespawnExist = true := by decide

/-- C6: in the active connection graph there is a directed path from spawn
section 0 to despawn section 41 respecting every edge's
exclude-previous-block condition: the forward chain 0, 1, 2, ..., 41. -/
theorem C6_path_spawn0_to_despawn41 :
    ∃ p : List Nat, p.head? = some 0 ∧ p.getLast? = some 41 ∧
      validPath none p = true :=
  ⟨List.range 42, by decide, by decide, by decide⟩

/-- Certificate that `cut_set` is closed under the seeded connection
edges except through section 224: every edge leaving a cut-set section
either targets 224 or stays inside the cut set. -/
def cutSetClosed : Bool :=
  section_connections.all fun r =>
    !(decide (r.from_section_id ∈ cut_set)) || decide (r.to_section_id = 224) ||
      decide (r.to_section_id ∈ cut_set)

theorem cutSetClosed_true : cutSetClosed = true := by decide

theorem edge_into_cut {s t : Nat} (h : hasEdge s t = true) (hs : s ∈ cut_set) :
    t = 224 ∨ t ∈ cut_set := by
  have hall := cutSetClosed_true
  unfold cutSetClosed at hall
  rw [List.all_eq_true] at hall
  unfold hasEdge at h
  rw [List.any_eq_true] at h
  obtain ⟨r, hr, hrst⟩ := h
  have hc := hall r hr
  simp only [Bool.or_eq_true, Bool.not_eq_true', decide_eq_true_eq,
    decide_eq_false_iff_not, Bool.and_eq_true, beq_iff_eq] at hc hrst
  obtain ⟨h1, h2⟩ := hrst
  subst h1; subst h2
  rcases hc with (hc | hc) | hc
  · exact absurd hs hc
  · exact Or.inl hc
  · exact Or.inr hc

theorem chain_stays_in_cut (p : List Nat) :
    ∀ s, s ∈ cut_set → isChain (s :: p) = true → 224 ∉ s :: p →
      ∀ x ∈ s :: p, x ∈ cut_set := by
  induction p with
  | nil =>
    intro s hs _ _ x hx
    simp only [List.mem_singleton] at hx
    exact hx ▸ hs
  | cons t rest ih =>
    intro s hs hchain h224 x hx
    have hsplit : hasEdge s t = true ∧ isChain (t :: rest) = true := by
      simpa [isChain, Bool.and_eq_true] using hchain
    have ht : t ∈ cut_set := by
      rcases edge_into_cut hsplit.1 hs with h | h
      · exact absurd (h ▸ List.mem_cons_of_mem s (List.mem_cons_self t rest)) h224
      · exact h
    rcases List.mem_cons.mp hx with hx | hx
    · exact hx ▸ hs
    · exact ih t ht hsplit.2 (fun hmem => h224 (List.mem_cons_of_mem s hmem)) x hx

/-- C9: the seeded connection data has edges (216, 217) and (218, 219) but
no edge (217, 218), and every directed chain of connections from section
200 to section 218 passes through section 224 (all sections except
218-224 form a region closed under the edges except through 224). -/
theorem C9_paths_200_to_218_pass_224 :
    hasEdge 217 218 = false ∧ hasEdge 216 217 = true ∧ hasEdge 218 219 = true ∧
    ∀ p : List Nat, isChain (200 :: p) = true →
      (200 :: p).getLast? = some 218 → 224 ∈ 200 :: p := by
  refine ⟨by decide, by decide, by decide, ?_⟩
  intro p hchain hlast
  by_contra h224
  have h200 : (200 : Nat) ∈ cut_set := by decide
  have hall := chain_stays_in_cut p 200 h200 hchain h224
  have h218 : (218 : Nat) ∈ 200 :: p := by
    have := List.getLast?_eq_getLast (200 :: p) (by simp)
    rw [this] at hlast
    exact (Option.some_inj.mp hlast) ▸ List.getLast_mem (by simp)
  have : (218 : Nat) ∈ cut_set := hall 218 h218
  have h218f : (218 : Nat) ∉ cut_set := by decide
  exact h218f this

/-- The explicit chain 200, 201, ..., 208, 3010, 3011, 300, ..., 310,
3021, 3020, 224, 223, ..., 218 used to witness that section 218 is in fact
reachable from section 200 (through 224). -/
def demo_path_to_218 : List Nat :=
  [201, 202, 203, 204, 205, 206, 207, 208, 3010, 3011, 300, 301, 302, 303,
   304, 305, 306, 307, 308, 309, 310, 3021, 3020, 224, 223, 222, 221, 220,
   219, 218]

theorem C9_paths_200_to_218_pass_224_witness :
    224 ∈ 200 :: demo_path_to_218 :=
  C9_paths_200_to_218_pass_224.2.2.2 demo_path_to_218 (by decide) (by decide)

/-- C10: section 3001 is inserted and reachable via the connection
(3000, 3001), but no `rail_blocks` row assigns it to a block, so the
block-membership map is undefined (`none`) on 3001. -/
theorem C10_section_3001_blockless :
    sections.contains 3001 = true ∧ hasEdge 3000 3001 = true ∧
    blockOf 3001 = none ∧
    rail_blocks.all (fun r => !(r.2 == 3001)) = true := by decide

/-- Switch control, embedded from the repository README ("Collision &
Signaling", item 4): a switch-set command redirects the outgoing
connections of switch section `s` towards `t` only when no wagon currently
occupies the switch section itself; when a wagon sits on `s` the command
is rejected and the connection table is left unchanged. `occupied` is the
list of sections currently holding a wagon. -/
def set_switch_position (conns : List Conn) (occupied : List Nat)
    (s t : Nat) : Except String (List Conn) :=
  if s ∈ occupied then Except.error "SwitchOccupied"
  else Except.ok (conns.map fun r =>
    if r.from_section_id == s then
      { r with is_active := r.to_section_id == t }
    else r)

/-- C3 counterexample: with a wagon on section 1000 — an endpoint of the
connection (2, 1000) — but none on the switch section 2, the command
redirecting switch 2 to section 3 is NOT rejected: it succeeds and flips
the active flag of (2, 1000) from true to false, so occupancy of the `to`
endpoint does not protect a connection's flag. -/
theorem C3_counterexample :
    set_switch_position [cx 2 3 "L", cx 2 1000 "C"] [1000] 2 3 =
      Except.ok [cx 2 3 "L", ⟨2, 1000, some "C", false⟩] ∧
    set_switch_position [cx 2 3 "L", cx 2 1000 "C"] [1000] 2 3 ≠
      Except.error "SwitchOccupied" := by
  have h : set_switch_position [cx 2 3 "L", cx 2 1000 "C"] [1000] 2 3 =
      Except.ok [cx 2 3 "L", ⟨2, 1000, some "C", false⟩] := rfl
  refine ⟨h, ?_⟩
  rw [h]
  intro hcontra
  cases hcontra

/-- C3 (amended): a switch-set command is rejected with SwitchOccupied —
leaving every active flag unchanged, since no new connection table is
produced — whenever a wagon sits on the `from` (switch) section of the
connection, and a command that does change the flags implies the switch
section was free of wagons. -/
theorem C3_switch_occupied (conns : List Conn) (occupied : List Nat)
    (s t : Nat) :
    (s ∈ occupied →
      set_switch_position conns occupied s t = Except.error "SwitchOccupied") ∧
    (∀ out, set_switch_position conns occupied s t = Except.ok out →
      s ∉ occupied) := by
  constructor
  · intro h
    simp [set_switch_position, h]
  · intro out hout h
    simp [set_switch_position, h] at hout

theorem C3_switch_occupied_witness :
    set_switch_position [cx 2 3 "L", cx 2 1000 "C"] [2] 2 3 =
      Except.error "SwitchOccupied" :=
  (C3_switch_occupied [cx 2 3 "L", cx 2 1000 "C"] [2] 2 3).1 (by decide)

/-- A train contending for a next section or a free block, reduced to the
attributes arbitration looks at: its id and its type's priority index. -/
structure Contender where
  train_id : Nat
  priority_index : Nat
deriving DecidableEq, Repr

/-- Modelled from the spec: contender `a` beats contender `b` when it has
strictly higher priority_index, or equal priority_index and strictly
lower train id (spec §4.5 rule 4, INSTRUCTIONS.md rule 13; the engine
code is not in the repository snapshot). -/
def beats (a b : Contender) : Bool :=
  b.priority_index < a.priority_index ||
    (a.priority_index == b.priority_index && a.train_id < b.train_id)

/-- Modelled from the spec: the per-tick arbitration among trains that
would admit into the same next section or the same currently-free block —
the single admitted contender, found by keeping the best contender so far;
all other contenders are denied for the tick. -/
def arbitrate : List Contender → Option Contender
  | [] => none
  | c :: cs => some (cs.foldl (fun w d => if beats d w then d else w) c)

theorem beats_irrefl (a : Contender) : beats a a = false := by
  simp [beats]

theorem beats_asymm {a b : Contender} (h : beats a b = true) :
    beats b a = false := by
  simp only [beats, Bool.or_eq_true, Bool.or_eq_false_iff,
    Bool.and_eq_true, Bool.and_eq_false_iff, decide_eq_true_eq,
    decide_eq_false_iff_not, Nat.not_lt, beq_iff_eq,
    beq_eq_false_iff_ne, ne_eq] at h ⊢
  omega

theorem beats_false_trans {a b c : Contender} (h1 : beats a b = false)
    (h2 : beats b c = false) : beats a c = false := by
  simp only [beats, Bool.or_eq_false_iff, Bool.and_eq_false_iff,
    decide_eq_false_iff_not, Nat.not_lt, beq_eq_false_iff_ne, ne_eq] at h1 h2 ⊢
  omega

theorem arbitrate_fold_mem (xs : List Contender) :
    ∀ x, xs.foldl (fun w d => if beats d w then d else w) x ∈ x :: xs := by
  induction xs with
  | nil => intro x; simp
  | cons y ys ih =>
    intro x
    simp only [List.foldl_cons]
    rcases List.mem_cons.mp (ih (if beats y x then y else x)) with h | h
    · by_cases hb : beats y x = true
      · rw [h, if_pos hb]
        exact List.mem_cons_of_mem x (List.mem_cons_self y ys)
      · rw [h, if_neg hb]
        exact List.mem_cons_self x (y :: ys)
    · exact List.mem_cons_of_mem x (List.mem_cons_of_mem y h)

theorem arbitrate_fold_best (xs : List Contender) :
    ∀ x, ∀ c ∈ x :: xs,
      beats c (xs.foldl (fun w d => if beats d w then d else w) x) = false := by
  induction xs with
  | nil =>
    intro x c hc
    simp only [List.mem_singleton] at hc
    simpa [hc, List.foldl_nil] using beats_irrefl c
  | cons y ys ih =>
    intro x c hc
    simp only [List.foldl_cons]
    have hx : beats x (if beats y x then y else x) = false := by
      by_cases hb : beats y x = true
      · rw [if_pos hb]; exact beats_asymm hb
      · rw [if_neg hb]; exact beats_irrefl x
    have hy : beats y (if beats y x then y else x) = false := by
      by_cases hb : beats y x = true
      · rw [if_pos hb]; exact beats_irrefl y
      · rw [if_neg hb]; exact Bool.eq_false_iff.mpr hb
    have hrest := ih (if beats y x then y else x)
    have hbase : beats (if beats y x then y else x)
        (ys.foldl (fun w d => if beats d w then d else w)
          (if beats y x then y else x)) = false :=
      hrest _ (List.mem_cons_self _ ys)
    rcases List.mem_cons.mp hc with hc | hc
    · subst hc; exact beats_false_trans hx hbase
    · rcases List.mem_cons.mp hc with hc | hc
      · subst hc; exact beats_false_trans hy hbase
      · exact hrest c (List.mem_cons_of_mem _ hc)

/-- C7: the arbitration among trains that would admit into the same next
section or the same currently-free block in one tick returns a contender
of the list such that every contender it denies either has strictly lower
priority_index, or equal priority_index and a train id no smaller than the
winner's — the higher priority wins, ties go to the lower train id. -/
theorem C7_priority_arbitration (cs : List Contender) (w : Contender)
    (h : arbitrate cs = some w) :
    w ∈ cs ∧ ∀ c ∈ cs, c.priority_index < w.priority_index ∨
      (c.priority_index = w.priority_index ∧ w.train_id ≤ c.train_id) := by
  match cs with
  | [] => simp [arbitrate] at h
  | x :: xs =>
    simp only [arbitrate, Option.some_inj] at h
    have hmem := arbitrate_fold_mem xs x
    have hbest := arbitrate_fold_best xs x
    rw [h] at hmem hbest
    refine ⟨hmem, ?_⟩
    intro c hc
    have hb := hbest c hc
    simp only [beats, Bool.or_eq_false_iff, Bool.and_eq_false_iff,
      decide_eq_false_iff_not, Nat.not_lt, beq_eq_false_iff_ne, ne_eq] at hb
    omega

theorem C7_priority_arbitration_witness :
    (⟨7, 2⟩ : Contender) ∈ [(⟨4, 1⟩ : Contender), ⟨7, 2⟩] ∧
    ∀ c ∈ [(⟨4, 1⟩ : Contender), ⟨7, 2⟩],
      c.priority_index < (⟨7, 2⟩ : Contender).priority_index ∨
      (c.priority_index = (⟨7, 2⟩ : Contender).priority_index ∧
        (⟨7, 2⟩ : Contender).train_id ≤ c.train_id) :=
  C7_priority_arbitration [⟨4, 1⟩, ⟨7, 2⟩] ⟨7, 2⟩ (by decide)

/-- One wagon movement step, embedded from the repository README
("Movement Step"): the offset advances by `step = speed_per_second * dt`;
on reaching 1.0 the wagon transitions to its next section with the offset
wrapped to the remainder when that section is free, and stops — keeping
its current section and position — when the next section is occupied.
Returns the stored offset and whether the wagon changed section. -/
def advance_wagon (offset step : ℚ) (next_free : Bool) : ℚ × Bool :=
  if 1 ≤ offset + step then
    if next_free then (offset + step - 1, true) else (offset, false)
  else (offset + step, false)

/-- C8: every `wagon_positions` row seeded by mock_data.sql has
position_offset in [0, 1), and the movement step keeps any stored offset
in [0, 1): starting from an offset in [0, 1) with a per-tick advance in
[0, 1), the offset stored after the step — whether the wagon stays below
the boundary, stops because the next section is occupied, or wraps past
the boundary into the next section — again lies in [0, 1). -/
theorem C8_offset_range :
    (∀ w ∈ mock_wagon_positions,
      0 ≤ w.position_offset ∧ w.position_offset < 1) ∧
    ∀ (offset step : ℚ) (next_free : Bool), 0 ≤ offset → offset < 1 →
      0 ≤ step → step < 1 →
      0 ≤ (advance_wagon offset step next_free).1 ∧
      (advance_wagon offset step next_free).1 < 1 := by
  constructor
  · intro w hw
    simp only [mock_wagon_positions] at hw
    fin_cases hw <;> norm_num [wp]
  · intro o s f h0 h1 h2 h3
    unfold advance_wagon
    split_ifs <;> dsimp only <;> constructor <;> linarith

theorem C8_offset_range_witness :
    0 ≤ (advance_wagon (1/2) (7/10) true).1 ∧
    (advance_wagon (1/2) (7/10) true).1 < 1 :=
  C8_offset_range.2 (1/2) (7/10) true (by norm_num) (by norm_num)
    (by norm_num) (by norm_num)

end TrenoSim
